import Mathlib

/-!
# Verification of AutoPyFunc (src/AutoPyFunc.py)

A shallow embedding of the `sid` marker-call compiler:

* `PyExpr` / `PyArgs` model the Python AST fragment the transformer touches
  (names, string/number constants, call expressions with positional
  argument lists).
* `visit` / `visitArgs` model `SidFunctionTransformer.visit` as driven by
  `ast.NodeTransformer`: `visit_Call` logic for call nodes (lines 51-79),
  `generic_visit` recursion elsewhere.  Python exceptions are modelled by
  `Except PyError`.
* `load_cache` / `save_cache` model the persisted cache (lines 115-133),
  with the key encoding `str((fname, desc))` and the decoding `eval(k)`
  modelled by an explicit printer/parser pair for Python string-tuple
  literals.
* `generate_function` (lines 81-113) and `get_token` (lines 25-42) are
  modelled over response oracles; network, `re.search` extraction and
  `compile` are external boundaries passed in as oracle functions.
* `sid_compiler` (lines 135-153) models batch mode over a file-system /
  parser oracle environment, and `main_dispatch` models the
  `__main__` argument dispatch (lines 160-169).
-/

mutual
/-- The fragment of the Python expression grammar the transformer
inspects: identifiers, string-literal constants, and call expressions.
A name or nested call in argument position models the "argument that is
not a string literal" cases (`description.s` / `str.replace` raise on
them).  Non-string bare constants are outside the model: under the
deprecated `ast.Constant.s` alias they behave differently per Python
version. -/
inductive PyExpr where
  | name (id : String) : PyExpr
  | strLit (s : String) : PyExpr
  | call (func : PyExpr) (args : PyArgs) : PyExpr
deriving DecidableEq

/-- Positional argument lists of a call node. -/
inductive PyArgs where
  | nil : PyArgs
  | cons (head : PyExpr) (tail : PyArgs) : PyArgs
deriving DecidableEq
end

/-- `len(node.args)`. -/
def argsLen : PyArgs → Nat
  | PyArgs.nil => 0
  | PyArgs.cons _ rest => argsLen rest + 1

/-- Python exceptions that can escape the modelled code. -/
inductive PyError where
  | attributeError (msg : String)
  | syntaxError (msg : String)
deriving DecidableEq

/-- Levels of the `logging` calls in the source. -/
inductive LogLevel where
  | info
  | error
deriving DecidableEq

/-- A `(function_name, description)` cache key, compared structurally
like a Python tuple of strings. -/
abbrev GenKey := String × String

/-- The in-memory `self.function_cache` dict: association list in
insertion order, keys compared structurally. -/
abbrev Cache := List (GenKey × String)

/-- `cache_key in self.function_cache` / `self.function_cache[cache_key]`. -/
def lookupCache : Cache → GenKey → Option String
  | [], _ => none
  | (k, v) :: rest, key => if k = key then some v else lookupCache rest key

/-- `self.function_cache[cache_key] = function_code`: Python dict
assignment keeps the position of an existing key and appends a new key. -/
def dictInsert : Cache → GenKey → String → Cache
  | [], key, val => [(key, val)]
  | (k, v) :: rest, key, val =>
      if k = key then (k, val) :: rest else (k, v) :: dictInsert rest key val

/-! ## Cache key encoding (`str((fname, desc))`) and decoding (`eval(k)`)

`save_cache` (line 130) writes each key as the Python `str` of a pair of
strings; `load_cache` (line 120) recovers it with `eval`.  We model the
printer exactly as CPython's `repr` behaves on printable strings (quote
selection, escaping of the backslash and of the chosen quote), and we
model `eval` restricted to the sublanguage `save_cache` emits: a
parenthesised pair of quoted string literals. -/

/-- Python `c in s` character membership. -/
def strHasChar (s : String) (c : Char) : Bool := s.toList.contains c

/-- Python `"description".replace(' ', '_')` (line 56): with a
single-character pattern and replacement this is a character map. -/
def pyReplaceSpace (s : String) : String :=
  String.mk (s.toList.map (fun c => if c = ' ' then '_' else c))

/-- CPython `repr` quote selection: a single quote, unless the string
contains a single quote and no double quote. -/
def reprQuote (s : String) : Char :=
  if strHasChar s '\'' && !(strHasChar s '"') then '"' else '\''

/-- How CPython `repr` emits one printable character inside quotes `q`:
the backslash and the quote character are escaped, the rest is verbatim. -/
def escapeCharL (q c : Char) : List Char :=
  if c = '\\' then ['\\', '\\']
  else if c = q then ['\\', q]
  else [c]

/-- The character stream of CPython `repr s` for printable `s`. -/
def pyReprChars (s : String) : List Char :=
  let q := reprQuote s
  q :: ((s.toList.map (escapeCharL q)).flatten ++ [q])

/-- CPython `repr` of a printable string. -/
def pyRepr (s : String) : String := String.mk (pyReprChars s)

/-- The key encoding of `save_cache` line 130: `str((fname, desc))`. -/
def encodeKey (k : GenKey) : String :=
  "(" ++ pyRepr k.1 ++ ", " ++ pyRepr k.2 ++ ")"

/-- Body of a quoted string literal, as `eval` reads it: characters up
to the closing quote `q`, with `\\`, `\'` and `\"` escapes.  `acc` holds
the characters read so far, reversed. -/
def parseStrBody (q : Char) : List Char → List Char → Option (String × List Char)
  | [], _ => none
  | c :: rest, acc =>
      if c = q then some (String.mk acc.reverse, rest)
      else if c = '\\' then
        match rest with
        | [] => none
        | e :: rest2 =>
            if e = '\\' || e = '\'' || e = '"' then parseStrBody q rest2 (e :: acc)
            else none
      else parseStrBody q rest (c :: acc)

/-- One quoted Python string literal, returning the decoded string and
the unconsumed suffix. -/
def parseStrLit : List Char → Option (String × List Char)
  | [] => none
  | q :: rest => if q = '\'' || q = '"' then parseStrBody q rest [] else none

/-- `eval` on the tuple literals `save_cache` writes
(`'(' <string> ', ' <string> ')'`), split into one function per
consumed piece.  This reads the closing part after the separator. -/
def parsePairSecond (a : String) (rest3 : List Char) : Option GenKey :=
  match parseStrLit rest3 with
  | none => none
  | some (b, rest4) => if rest4 = [')'] then some (a, b) else none

/-- After the first component: expects the tuple separator then the
second string literal. -/
def parsePairComma (a : String) : List Char → Option GenKey
  | c2 :: c3 :: rest3 =>
      if c2 = ',' && c3 = ' ' then parsePairSecond a rest3 else none
  | _ => none

/-- After the opening parenthesis: the first string literal, then the
rest of the tuple. -/
def parsePairAfterParen (rest : List Char) : Option GenKey :=
  match parseStrLit rest with
  | none => none
  | some (a, rest2) => parsePairComma a rest2

def parsePairChars (cs : List Char) : Option GenKey :=
  match cs with
  | [] => none
  | c :: rest => if c = '(' then parsePairAfterParen rest else none

/-- The key decoding of `load_cache` line 120: `eval(k)`, modelled on
the image of `encodeKey`. -/
def decodeKey (s : String) : Option GenKey := parsePairChars s.toList

/-- `save_cache` (lines 127-133): the JSON object written to
`CACHE_FILE`, modelled as its ordered list of (encoded key, code)
entries. -/
def save_cache (c : Cache) : List (String × String) :=
  c.map (fun kv => (encodeKey kv.1, kv.2))

/-- The dict comprehension of `load_cache` line 120: if `eval` fails on
any key the whole comprehension raises, so the result is all-or-nothing. -/
def decodeEntries : List (String × String) → Option Cache
  | [] => some []
  | (k, v) :: rest =>
      match decodeKey k, decodeEntries rest with
      | some key, some tail => some ((key, v) :: tail)
      | _, _ => none

/-- `load_cache` (lines 115-125): an absent file gives an empty table; a
file whose keys fail to decode is caught and gives an empty table
(line 121-123); otherwise every key is decoded. -/
def load_cache (file : Option (List (String × String))) : Cache :=
  match file with
  | none => []
  | some entries => (decodeEntries entries).getD []

/-! ## Transformer state -/

/-- The mutable state of a `SidFunctionTransformer` during one pass,
together with the persisted cache file and an instrumentation counter
for line 72 (`asyncio.run(self.generate_function(...))`), which counts
generation-backend invocations. -/
structure TState where
  function_cache : Cache
  function_codes : List String
  cacheFile : Option (List (String × String))
  log : List (LogLevel × String)
  backendCalls : Nat
deriving DecidableEq

/-- A `logging.info` / `logging.error` call: the message is appended to
the log stream.  Source positions inside messages are not modelled. -/
def logMsg (st : TState) (lvl : LogLevel) (m : String) : TState :=
  { st with log := st.log ++ [(lvl, m)] }

/-- Message of line 65 (`logging.error`), without the position. -/
def wrongArityMsg : String := "Wrong number of arguments! Skipping."

/-- Message of lines 58/63 (`logging.info`), without position and text. -/
def generatingMsg : String := "Generating sid function"

/-- Message of line 75 (`logging.info`), without the code text. -/
def generatedMsg : String := "Generated code"

/-- Lines 68-77 of `visit_Call`, after `(function_name, description)`
has been resolved: consult the cache; on a miss call the generation
backend `gen`, insert the result, and write the cache file; then log,
append the fragment to `function_codes`, and substitute an
`ast.Name(id=function_name, ctx=ast.Load())`. -/
def sidSubstitute (gen : String → String → String)
    (function_name description : String) (st : TState) : PyExpr × TState :=
  let key : GenKey := (function_name, description)
  let (function_code, st1) :=
    match lookupCache st.function_cache key with
    | some c => (c, st)
    | none =>
        let c := gen function_name description
        let cache2 := dictInsert st.function_cache key c
        (c, { st with
                function_cache := cache2
                backendCalls := st.backendCalls + 1
                cacheFile := some (save_cache cache2) })
  let st2 := { st1 with
                 log := st1.log ++ [(LogLevel.info, generatedMsg)]
                 function_codes := st1.function_codes ++ [function_code] }
  (PyExpr.name function_name, st2)

mutual
/-- `SidFunctionTransformer.visit` as run by `ast.NodeTransformer`:
`visit_Call` (lines 51-79) on call nodes, `generic_visit` elsewhere.
A call whose callee is the bare name `sid` dispatches on arity: one
string literal derives the name by space-to-underscore replacement
(line 56); two string literals use the explicit name (lines 60-62); any
other arity logs an error and falls through to `generic_visit`
(lines 64-66); a 1- or 2-argument call whose needed argument is not a
string literal raises `AttributeError` from the `.s` access /
`str.replace` (lines 55-62).  Visiting a `Name` callee returns it
unchanged (it has no child expressions), so `generic_visit` on a call
with a `Name` callee only rewrites the arguments. -/
def visit (gen : String → String → String) :
    PyExpr → TState → Except PyError (PyExpr × TState)
  | PyExpr.call (PyExpr.name fid) args, st =>
      if fid = "sid" then
        match args with
        | PyArgs.cons (PyExpr.strLit s) PyArgs.nil =>
            Except.ok (sidSubstitute gen (pyReplaceSpace s) s
              (logMsg st LogLevel.info generatingMsg))
        | PyArgs.cons _ PyArgs.nil =>
            Except.error (PyError.attributeError
              "1-argument sid call: argument node has no usable str value")
        | PyArgs.cons (PyExpr.strLit n) (PyArgs.cons (PyExpr.strLit d) PyArgs.nil) =>
            Except.ok (sidSubstitute gen n d
              (logMsg st LogLevel.info generatingMsg))
        | PyArgs.cons _ (PyArgs.cons _ PyArgs.nil) =>
            Except.error (PyError.attributeError
              "2-argument sid call: argument node has no usable str value")
        | _ =>
            match visitArgs gen args (logMsg st LogLevel.error wrongArityMsg) with
            | Except.error e => Except.error e
            | Except.ok (args2, st2) =>
                Except.ok (PyExpr.call (PyExpr.name fid) args2, st2)
      else
        match visitArgs gen args st with
        | Except.error e => Except.error e
        | Except.ok (args2, st2) =>
            Except.ok (PyExpr.call (PyExpr.name fid) args2, st2)
  | PyExpr.call f args, st =>
      match visit gen f st with
      | Except.error e => Except.error e
      | Except.ok (f2, st1) =>
          match visitArgs gen args st1 with
          | Except.error e => Except.error e
          | Except.ok (args2, st2) => Except.ok (PyExpr.call f2 args2, st2)
  | e, st => Except.ok (e, st)

/-- `generic_visit` over the positional arguments of a call, left to
right, threading the transformer state. -/
def visitArgs (gen : String → String → String) :
    PyArgs → TState → Except PyError (PyArgs × TState)
  | PyArgs.nil, st => Except.ok (PyArgs.nil, st)
  | PyArgs.cons a rest, st =>
      match visit gen a st with
      | Except.error e => Except.error e
      | Except.ok (a2, st1) =>
          match visitArgs gen rest st1 with
          | Except.error e => Except.error e
          | Except.ok (rest2, st2) => Except.ok (PyArgs.cons a2 rest2, st2)
end

mutual
/-- The `(function_name, description)` keys of the valid marker sites a
visit of this expression resolves, in visit order.  Mirrors the
branching of `visit`: a valid `sid` site contributes its key and is not
descended into; a wrong-arity `sid` call and any other call contribute
the keys of their visited children. -/
def validKeys : PyExpr → List GenKey
  | PyExpr.call (PyExpr.name fid) args =>
      if fid = "sid" then
        match args with
        | PyArgs.cons (PyExpr.strLit s) PyArgs.nil => [(pyReplaceSpace s, s)]
        | PyArgs.cons _ PyArgs.nil => []
        | PyArgs.cons (PyExpr.strLit n) (PyArgs.cons (PyExpr.strLit d) PyArgs.nil) =>
            [(n, d)]
        | PyArgs.cons _ (PyArgs.cons _ PyArgs.nil) => []
        | _ => validKeysArgs args
      else validKeysArgs args
  | PyExpr.call f args => validKeys f ++ validKeysArgs args
  | _ => []

/-- `validKeys` over an argument list. -/
def validKeysArgs : PyArgs → List GenKey
  | PyArgs.nil => []
  | PyArgs.cons a rest => validKeys a ++ validKeysArgs rest
end

/-- The state of a freshly constructed `SidFunctionTransformer`
(lines 45-49): empty `function_codes`, `load_cache` of the given file.
The token fetch of line 48 is modelled separately (`get_token`). -/
def initState (file : Option (List (String × String))) : TState :=
  { function_cache := load_cache file
    function_codes := []
    cacheFile := file
    log := []
    backendCalls := 0 }

/-! ## Generation client and credential fetch -/

/-- The outcome of the HTTP request of `generate_function`
(lines 87-101), as seen by the caller: either the request (or anything
before it) raised, or a response arrived with a status code and,
when the JSON body had the `choices[0].message.content` shape, that
content string (`none` models a body on which line 106 raises). -/
inductive BackendResult where
  | raises (msg : String)
  | response (status : Nat) (content : Option String)
deriving DecidableEq

/-- `generate_function` (lines 81-113).  `extract` models the
`re.search` code-fence extraction of lines 107-108 (the first fenced
block if present, else the full text); `compileOk` models whether
`compile(code, '<string>', 'exec')` (line 109) succeeds.  Any raise
inside the `try` is caught and collapsed to `""` (lines 111-113); a
non-200 status returns the literal text `"Response 404"` (lines
103-104). -/
def generate_function (compileOk : String → Bool) (extract : String → String)
    (r : BackendResult) : String :=
  match r with
  | BackendResult.raises _ => ""
  | BackendResult.response status content =>
      if status ≠ 200 then "Response 404"
      else
        match content with
        | none => ""
        | some c =>
            let code := extract c
            if compileOk code then code else ""

/-- The generation function `visit_Call` runs at line 72, for a fixed
backend/extraction/compile oracle. -/
def genOf (backend : String → String → BackendResult)
    (compileOk : String → Bool) (extract : String → String) :
    String → String → String :=
  fun n d => generate_function compileOk extract (backend n d)

/-- The outcome of the token request of `get_token` (line 33): a raise,
or a response with a status code and the optional `token` field of its
JSON body. -/
inductive TokenResponse where
  | raises (msg : String)
  | response (status : Nat) (tokenField : Option String)
deriving DecidableEq

/-- The Python value `get_token` evaluates to: a token string, an
`\x7b"error": ...\x7d` dictionary, or `None`. -/
inductive PyValue where
  | str (s : String)
  | errDict (msg : String)
  | pyNone
deriving DecidableEq

/-- `get_token` (lines 25-42): a 200 response with a `token` field
returns the token; a 200 response without one falls off the function
(`None`); any other status returns an error dictionary (line 40); any
raise is caught and returns an error dictionary (lines 41-42). -/
def get_token : TokenResponse → PyValue
  | TokenResponse.raises m => PyValue.errDict m
  | TokenResponse.response status tok =>
      if status = 200 then
        match tok with
        | some t => PyValue.str t
        | none => PyValue.pyNone
      else PyValue.errDict ("Received " ++ toString status ++ " HTTP status code")

/-- Python `str()` of the values `get_token` can produce, as an f-string
interpolates them: a string verbatim, a dict as `\x7b'error': '...'\x7d`,
`None` as `None`. -/
def pyStrOfValue : PyValue → String
  | PyValue.str s => s
  | PyValue.errDict m => "\x7b" ++ pyRepr "error" ++ ": " ++ pyRepr m ++ "\x7d"
  | PyValue.pyNone => "None"

/-- The `Authorization` header of line 92: `f"Bearer \x7bself.token\x7d"`,
built from whatever value `get_token` returned. -/
def bearer_authorization_header (token : PyValue) : String :=
  "Bearer " ++ pyStrOfValue token

/-! ## Batch driver and command dispatch -/

/-- The external collaborators of one `sid_compiler` run: the result of
reading the input file, `ast.parse`, `astunparse.unparse`, the
generation backend composite, the persisted cache file, and whether the
output write succeeds. -/
structure BatchEnv where
  readResult : Except String String
  parse : String → Except String PyExpr
  unparse : PyExpr → String
  gen : String → String → String
  cacheFile : Option (List (String × String))
  writeOk : Bool

/-- How one `sid_compiler` run ends when no exception escapes. -/
inductive BatchOutcome where
  | aborted_read
  | wrote (content : String)
  | write_failed (content : String)
deriving DecidableEq

/-- `sid_compiler` (lines 135-153): a read failure is caught, logged
and returns (lines 139-141); `ast.parse` (line 143) and
`transformer.visit` (line 145) are not inside any `try`, so their
exceptions propagate to the caller; the output is the pooled fragments
joined by blank lines followed by the unparsed rewritten tree
(line 147); a write failure is caught and logged (lines 152-153). -/
def sid_compiler (env : BatchEnv) : Except PyError BatchOutcome :=
  match env.readResult with
  | Except.error _ => Except.ok BatchOutcome.aborted_read
  | Except.ok code =>
      match env.parse code with
      | Except.error m => Except.error (PyError.syntaxError m)
      | Except.ok module =>
          match visit env.gen module (initState env.cacheFile) with
          | Except.error e => Except.error e
          | Except.ok (m2, st2) =>
              let new_code :=
                String.intercalate "\n\n" st2.function_codes ++ env.unparse m2
              if env.writeOk then Except.ok (BatchOutcome.wrote new_code)
              else Except.ok (BatchOutcome.write_failed new_code)

/-- The mode a command-line invocation ends in. -/
inductive CliMode where
  | batch (input_path output_path : String)
  | interactive
  | usage_error
deriving DecidableEq

/-- `argparse` over the two optional positionals of lines 162-163: zero,
one or two positional arguments parse; more is a usage error
(`parser.parse_args` exits).  Option flags are outside the model. -/
def parse_args : List String → Option (Option String × Option String)
  | [] => some (none, none)
  | [a] => some (some a, none)
  | [a, b] => some (some a, some b)
  | _ => none

/-- Python truthiness of an optional string: `None` and `""` are falsy. -/
def pyTruthy : Option String → Bool
  | none => false
  | some s => s != ""

/-- The `__main__` dispatch (lines 160-169):
`if args.input_path and args.output_path` runs batch mode, else the
interactive prompt. -/
def main_dispatch (argv : List String) : CliMode :=
  match parse_args argv with
  | none => CliMode.usage_error
  | some (i, o) =>
      if pyTruthy i && pyTruthy o then CliMode.batch (i.getD "") (o.getD "")
      else CliMode.interactive

/-! ## Round trip of the persisted key encoding -/

theorem reprQuote_cases (s : String) : reprQuote s = '\'' ∨ reprQuote s = '"' := by
  unfold reprQuote
  by_cases h : (strHasChar s '\'' && !(strHasChar s '"')) = true
  · rw [if_pos h]; right; rfl
  · rw [if_neg h]; left; rfl

theorem parseStrBody_close (q : Char) (rest acc : List Char) :
    parseStrBody q (q :: rest) acc = some (String.mk acc.reverse, rest) := by
  rw [parseStrBody.eq_def]
  simp

theorem parseStrBody_escape_step (q : Char) (hqb : q ≠ '\\') (e : Char)
    (he : (e = '\\' || e = '\'' || e = '"') = true) (rest acc : List Char) :
    parseStrBody q ('\\' :: e :: rest) acc = parseStrBody q rest (e :: acc) := by
  rw [parseStrBody.eq_def]
  have h1 : ('\\' : Char) ≠ q := fun h => hqb h.symm
  simp [h1, he]

theorem parseStrBody_plain_step (q c : Char) (hc : c ≠ q) (hb : c ≠ '\\')
    (rest acc : List Char) :
    parseStrBody q (c :: rest) acc = parseStrBody q rest (c :: acc) := by
  rw [parseStrBody.eq_def]
  simp [hc, hb]

theorem parseStrBody_escBody (q : Char) (hq : q = '\'' ∨ q = '"')
    (cs : List Char) : ∀ (acc rest : List Char),
    parseStrBody q ((cs.map (escapeCharL q)).flatten ++ q :: rest) acc
      = some (String.mk (acc.reverse ++ cs), rest) := by
  have hqb : q ≠ '\\' := by rcases hq with h | h <;> (subst h; decide)
  induction cs with
  | nil =>
      intro acc rest
      simp only [List.map_nil, List.flatten_nil, List.nil_append,
        parseStrBody_close, List.append_nil]
  | cons c cs ih =>
      intro acc rest
      by_cases hb : c = '\\'
      · subst hb
        have h1 : escapeCharL q '\\' = ['\\', '\\'] := by simp [escapeCharL]
        rw [List.map_cons, h1, List.flatten_cons]
        rw [show (['\\', '\\'] ++ (cs.map (escapeCharL q)).flatten) ++ q :: rest
            = '\\' :: '\\' :: ((cs.map (escapeCharL q)).flatten ++ q :: rest) by
          simp]
        rw [parseStrBody_escape_step q hqb '\\' (by simp) _ acc, ih]
        simp
      · by_cases hc : c = q
        · subst hc
          have h1 : escapeCharL c c = ['\\', c] := by simp [escapeCharL, hb]
          rw [List.map_cons, h1, List.flatten_cons]
          rw [show (['\\', c] ++ (cs.map (escapeCharL c)).flatten) ++ c :: rest
              = '\\' :: c :: ((cs.map (escapeCharL c)).flatten ++ c :: rest) by
            simp]
          rw [parseStrBody_escape_step c hqb c
            (by rcases hq with h | h <;> simp [h]) _ acc, ih]
          simp
        · have h1 : escapeCharL q c = [c] := by simp [escapeCharL, hb, hc]
          rw [List.map_cons, h1, List.flatten_cons]
          rw [show ([c] ++ (cs.map (escapeCharL q)).flatten) ++ q :: rest
              = c :: ((cs.map (escapeCharL q)).flatten ++ q :: rest) by simp]
          rw [parseStrBody_plain_step q c hc hb _ acc, ih]
          simp

theorem parseStrLit_pyRepr (s : String) (rest : List Char) :
    parseStrLit (pyReprChars s ++ rest) = some (s, rest) := by
  have hq := reprQuote_cases s
  have hcond : (reprQuote s = '\'' || reprQuote s = '"') = true := by
    rcases hq with h | h <;> simp [h]
  rw [show pyReprChars s ++ rest
      = reprQuote s
        :: ((s.toList.map (escapeCharL (reprQuote s))).flatten
            ++ reprQuote s :: rest) by
    simp [pyReprChars]]
  rw [parseStrLit.eq_def]
  simp only [hcond, if_true]
  rw [parseStrBody_escBody (reprQuote s) hq s.toList [] rest]
  simp

theorem decodeKey_encodeKey (k : GenKey) : decodeKey (encodeKey k) = some k := by
  obtain ⟨a, b⟩ := k
  unfold decodeKey
  rw [show (encodeKey (a, b)).toList
      = '(' :: (pyReprChars a ++ (',' :: ' ' :: (pyReprChars b ++ [')']))) by
    simp [encodeKey, String.toList, String.data_append, pyRepr]]
  rw [parsePairChars.eq_def]
  simp [parsePairAfterParen, parseStrLit_pyRepr, parsePairComma,
    parsePairSecond]

theorem decodeEntries_save_cache (c : Cache) :
    decodeEntries (save_cache c) = some c := by
  induction c with
  | nil => rfl
  | cons kv rest ih =>
      obtain ⟨k, v⟩ := kv
      simp only [save_cache, List.map_cons] at ih ⊢
      rw [decodeEntries, decodeKey_encodeKey, ih]

/-- Persist-then-load is the identity on the in-memory table. -/
theorem load_cache_save_cache (c : Cache) :
    load_cache (some (save_cache c)) = c := by
  simp [load_cache, decodeEntries_save_cache]

/-! ## Dictionary lemmas -/

theorem lookupCache_dictInsert (c : Cache) (k : GenKey) (v : String)
    (k2 : GenKey) :
    lookupCache (dictInsert c k v) k2
      = if k = k2 then some v else lookupCache c k2 := by
  induction c with
  | nil => by_cases h : k = k2 <;> simp [dictInsert, lookupCache, h]
  | cons kv rest ih =>
      obtain ⟨k1, v1⟩ := kv
      by_cases h1 : k1 = k
      · subst h1
        by_cases h2 : k1 = k2 <;> simp [dictInsert, lookupCache, h2]
      · by_cases h2 : k1 = k2
        · subst h2
          have : k ≠ k1 := fun h => h1 h.symm
          simp [dictInsert, lookupCache, h1, this]
        · simp [dictInsert, lookupCache, h1, h2, ih]

/-! ## The two outcomes of the cache interaction (lines 68-77) -/

theorem sidSubstitute_hit (gen : String → String → String)
    (fn d : String) (st : TState) (c : String)
    (h : lookupCache st.function_cache (fn, d) = some c) :
    sidSubstitute gen fn d st
      = (PyExpr.name fn,
         { st with
             log := st.log ++ [(LogLevel.info, generatedMsg)]
             function_codes := st.function_codes ++ [c] }) := by
  simp only [sidSubstitute]
  rw [h]

theorem sidSubstitute_miss (gen : String → String → String)
    (fn d : String) (st : TState)
    (h : lookupCache st.function_cache (fn, d) = none) :
    sidSubstitute gen fn d st
      = (PyExpr.name fn,
         { st with
             function_cache := dictInsert st.function_cache (fn, d) (gen fn d)
             backendCalls := st.backendCalls + 1
             cacheFile :=
               some (save_cache (dictInsert st.function_cache (fn, d) (gen fn d)))
             log := st.log ++ [(LogLevel.info, generatedMsg)]
             function_codes := st.function_codes ++ [gen fn d] }) := by
  simp only [sidSubstitute]
  rw [h]

/-! ## Shape lemmas for `visit` -/

theorem visit_leaf (gen : String → String → String) (st : TState) :
    (∀ i, visit gen (PyExpr.name i) st = Except.ok (PyExpr.name i, st))
    ∧ (∀ s, visit gen (PyExpr.strLit s) st = Except.ok (PyExpr.strLit s, st)) :=
  ⟨fun _ => rfl, fun _ => rfl⟩

theorem visit_sid_one (gen : String → String → String) (s : String)
    (st : TState) :
    visit gen (PyExpr.call (PyExpr.name "sid")
        (PyArgs.cons (PyExpr.strLit s) PyArgs.nil)) st
      = Except.ok (sidSubstitute gen (pyReplaceSpace s) s
          (logMsg st LogLevel.info generatingMsg)) := by
  rw [visit.eq_def]
  simp

theorem visit_sid_two (gen : String → String → String) (n d : String)
    (st : TState) :
    visit gen (PyExpr.call (PyExpr.name "sid")
        (PyArgs.cons (PyExpr.strLit n)
          (PyArgs.cons (PyExpr.strLit d) PyArgs.nil))) st
      = Except.ok (sidSubstitute gen n d
          (logMsg st LogLevel.info generatingMsg)) := by
  rw [visit.eq_def]
  simp

theorem visit_sid_one_bad (gen : String → String → String) (a : PyExpr)
    (ha : ∀ s, a ≠ PyExpr.strLit s) (st : TState) :
    visit gen (PyExpr.call (PyExpr.name "sid") (PyArgs.cons a PyArgs.nil)) st
      = Except.error (PyError.attributeError
          "1-argument sid call: argument node has no usable str value") := by
  rw [visit.eq_def]
  cases a with
  | strLit s => exact absurd rfl (ha s)
  | name i => simp
  | call f as => simp

theorem visit_sid_two_bad (gen : String → String → String) (a b : PyExpr)
    (hab : ¬ ∃ n d, a = PyExpr.strLit n ∧ b = PyExpr.strLit d) (st : TState) :
    visit gen (PyExpr.call (PyExpr.name "sid")
        (PyArgs.cons a (PyArgs.cons b PyArgs.nil))) st
      = Except.error (PyError.attributeError
          "2-argument sid call: argument node has no usable str value") := by
  rw [visit.eq_def]
  cases a with
  | strLit n =>
      cases b with
      | strLit d => exact absurd ⟨n, d, rfl, rfl⟩ hab
      | name i => simp
      | call f as => simp
  | name i => cases b <;> simp
  | call f as => cases b <;> simp

theorem visit_sid_wrong_arity (gen : String → String → String) (args : PyArgs)
    (h : argsLen args = 0 ∨ 3 ≤ argsLen args) (st : TState) :
    visit gen (PyExpr.call (PyExpr.name "sid") args) st
      = match visitArgs gen args (logMsg st LogLevel.error wrongArityMsg) with
        | Except.error e => Except.error e
        | Except.ok (args2, st2) =>
            Except.ok (PyExpr.call (PyExpr.name "sid") args2, st2) := by
  rw [visit.eq_def]
  cases args with
  | nil => simp
  | cons a rest =>
      cases rest with
      | nil => simp [argsLen] at h
      | cons b rest2 =>
          cases rest2 with
          | nil => simp [argsLen] at h
          | cons c rest3 => simp

theorem visit_nonsid_name (gen : String → String → String) (fid : String)
    (hf : fid ≠ "sid") (args : PyArgs) (st : TState) :
    visit gen (PyExpr.call (PyExpr.name fid) args) st
      = match visitArgs gen args st with
        | Except.error e => Except.error e
        | Except.ok (args2, st2) =>
            Except.ok (PyExpr.call (PyExpr.name fid) args2, st2) := by
  rw [visit.eq_def]
  simp [hf]

theorem visit_call_nonname (gen : String → String → String) (f : PyExpr)
    (hf : ∀ i, f ≠ PyExpr.name i) (args : PyArgs) (st : TState) :
    visit gen (PyExpr.call f args) st
      = match visit gen f st with
        | Except.error e => Except.error e
        | Except.ok (f2, st1) =>
            match visitArgs gen args st1 with
            | Except.error e => Except.error e
            | Except.ok (args2, st2) => Except.ok (PyExpr.call f2 args2, st2) := by
  cases f with
  | name i => exact absurd rfl (hf i)
  | strLit s => rw [visit.eq_def]
  | call f1 a1 => rw [visit.eq_def]

/-! ## The pass invariant

One visit only ever extends the cache (existing entries keep their
values), only appends to the log, and appends exactly one fragment to
`function_codes` per valid marker site, each fragment being the value
the final cache holds for that site's key. -/

/-- Cache extension preserving existing values. -/
def cacheLe (c1 c2 : Cache) : Prop :=
  ∀ k v, lookupCache c1 k = some v → lookupCache c2 k = some v

/-- What one (sub)visit guarantees between its entry state and its exit
state, given the keys of the valid marker sites it resolves. -/
def VisitInv (st st2 : TState) (keys : List GenKey) : Prop :=
  cacheLe st.function_cache st2.function_cache
  ∧ (∃ l, st2.log = st.log ++ l)
  ∧ ∃ frags, st2.function_codes = st.function_codes ++ frags
      ∧ List.Forall₂
          (fun k c => lookupCache st2.function_cache k = some c) keys frags

theorem cacheLe_refl (c : Cache) : cacheLe c c := fun _ _ h => h

theorem cacheLe_trans (c1 c2 c3 : Cache) (h1 : cacheLe c1 c2)
    (h2 : cacheLe c2 c3) : cacheLe c1 c3 :=
  fun k v h => h2 k v (h1 k v h)

theorem VisitInv_refl (st : TState) : VisitInv st st [] :=
  ⟨cacheLe_refl _, ⟨[], by simp⟩, ⟨[], by simp⟩⟩

theorem VisitInv_trans (st1 st2 st3 : TState) (ks1 ks2 : List GenKey)
    (h1 : VisitInv st1 st2 ks1) (h2 : VisitInv st2 st3 ks2) :
    VisitInv st1 st3 (ks1 ++ ks2) := by
  obtain ⟨hc1, ⟨l1, hl1⟩, ⟨f1, hf1, hall1⟩⟩ := h1
  obtain ⟨hc2, ⟨l2, hl2⟩, ⟨f2, hf2, hall2⟩⟩ := h2
  refine ⟨cacheLe_trans _ _ _ hc1 hc2, ⟨l1 ++ l2, by simp [hl2, hl1]⟩,
    ⟨f1 ++ f2, by simp [hf2, hf1], ?_⟩⟩
  exact List.rel_append (List.Forall₂.imp (fun k c h => hc2 k c h) hall1) hall2

theorem VisitInv_of_logMsg (st st2 : TState) (lvl : LogLevel) (m : String)
    (ks : List GenKey) (h : VisitInv (logMsg st lvl m) st2 ks) :
    VisitInv st st2 ks := by
  obtain ⟨hc, ⟨l, hl⟩, hf⟩ := h
  exact ⟨hc, ⟨(lvl, m) :: l, by simpa [logMsg] using hl⟩, hf⟩

theorem sidSubstitute_inv (gen : String → String → String)
    (fn d : String) (st : TState) :
    VisitInv st (sidSubstitute gen fn d st).2 [(fn, d)] := by
  cases hl : lookupCache st.function_cache (fn, d) with
  | some c =>
      rw [sidSubstitute_hit gen fn d st c hl]
      exact ⟨cacheLe_refl _, ⟨[(LogLevel.info, generatedMsg)], rfl⟩,
        ⟨[c], rfl, by simp [hl]⟩⟩
  | none =>
      rw [sidSubstitute_miss gen fn d st hl]
      refine ⟨?_, ⟨[(LogLevel.info, generatedMsg)], rfl⟩,
        ⟨[gen fn d], rfl, ?_⟩⟩
      · intro k v h
        simp only [lookupCache_dictInsert]
        by_cases hk : (fn, d) = k
        · rw [← hk] at h; rw [h] at hl; exact absurd hl (by simp)
        · rw [if_neg hk]; exact h
      · simp [lookupCache_dictInsert]

/-! ## Shape lemmas for `validKeys` -/

theorem validKeys_sid_one (s : String) :
    validKeys (PyExpr.call (PyExpr.name "sid")
        (PyArgs.cons (PyExpr.strLit s) PyArgs.nil))
      = [(pyReplaceSpace s, s)] := by
  rw [validKeys.eq_def]
  simp

theorem validKeys_sid_two (n d : String) :
    validKeys (PyExpr.call (PyExpr.name "sid")
        (PyArgs.cons (PyExpr.strLit n)
          (PyArgs.cons (PyExpr.strLit d) PyArgs.nil)))
      = [(n, d)] := by
  rw [validKeys.eq_def]
  simp

theorem validKeys_sid_wrong_arity (args : PyArgs)
    (h : argsLen args = 0 ∨ 3 ≤ argsLen args) :
    validKeys (PyExpr.call (PyExpr.name "sid") args) = validKeysArgs args := by
  rw [validKeys.eq_def]
  cases args with
  | nil => simp [validKeysArgs]
  | cons a rest =>
      cases rest with
      | nil => simp [argsLen] at h
      | cons b rest2 =>
          cases rest2 with
          | nil => simp [argsLen] at h
          | cons c rest3 => simp

theorem validKeys_nonsid_name (fid : String) (hf : fid ≠ "sid")
    (args : PyArgs) :
    validKeys (PyExpr.call (PyExpr.name fid) args) = validKeysArgs args := by
  rw [validKeys.eq_def]
  simp [hf]

theorem validKeys_call_nonname (f : PyExpr) (hf : ∀ i, f ≠ PyExpr.name i)
    (args : PyArgs) :
    validKeys (PyExpr.call f args)
      = validKeys f ++ validKeysArgs args := by
  cases f with
  | name i => exact absurd rfl (hf i)
  | strLit s => rw [validKeys.eq_def]
  | call f1 a1 => rw [validKeys.eq_def]

theorem validKeys_leaf :
    (∀ i, validKeys (PyExpr.name i) = [])
    ∧ (∀ s, validKeys (PyExpr.strLit s) = []) :=
  ⟨fun _ => rfl, fun _ => rfl⟩

/-- Splitting an `Except.ok` of a pair. -/
theorem exceptOk_pair_eq {α β γ : Type} {p : α × β} {a2 : α} {b2 : β}
    (h : (Except.ok p : Except γ (α × β)) = Except.ok (a2, b2)) :
    p.1 = a2 ∧ p.2 = b2 := by
  injection h with h1
  exact ⟨congrArg Prod.fst h1, congrArg Prod.snd h1⟩

mutual
/-- The pass invariant for one expression visit: the cache only grows,
the log only grows, and exactly one fragment is appended per valid
marker site, each equal to the final cache's value for that site's key. -/
theorem visit_inv (gen : String → String → String) (e : PyExpr)
    (st : TState) (e2 : PyExpr) (st2 : TState)
    (h : visit gen e st = Except.ok (e2, st2)) :
    VisitInv st st2 (validKeys e) := by
  cases e with
  | name i =>
      obtain ⟨_, hst⟩ := exceptOk_pair_eq h
      rw [← hst]
      exact VisitInv_refl st
  | strLit s =>
      obtain ⟨_, hst⟩ := exceptOk_pair_eq h
      rw [← hst]
      exact VisitInv_refl st
  | call f args =>
      cases f with
      | name fid =>
          by_cases hsid : fid = "sid"
          · subst hsid
            cases args with
            | nil =>
                rw [visit_sid_wrong_arity gen PyArgs.nil (Or.inl rfl) st] at h
                obtain ⟨_, hst⟩ := exceptOk_pair_eq h
                rw [← hst, validKeys_sid_wrong_arity PyArgs.nil (Or.inl rfl)]
                exact VisitInv_of_logMsg st _ _ _ _ (VisitInv_refl _)
            | cons a rest =>
                cases rest with
                | nil =>
                    cases a with
                    | strLit s =>
                        rw [visit_sid_one] at h
                        obtain ⟨_, hst⟩ := exceptOk_pair_eq h
                        rw [← hst, validKeys_sid_one]
                        exact VisitInv_of_logMsg st _ _ _ _
                          (sidSubstitute_inv gen (pyReplaceSpace s) s _)
                    | name i =>
                        rw [visit_sid_one_bad gen _ (fun s hc => by cases hc)] at h
                        exact absurd h (by simp)
                    | call f1 a1 =>
                        rw [visit_sid_one_bad gen _ (fun s hc => by cases hc)] at h
                        exact absurd h (by simp)
                | cons b rest2 =>
                    cases rest2 with
                    | nil =>
                        by_cases hab : ∃ n d, a = PyExpr.strLit n ∧ b = PyExpr.strLit d
                        · obtain ⟨n, d, rfl, rfl⟩ := hab
                          rw [visit_sid_two] at h
                          obtain ⟨_, hst⟩ := exceptOk_pair_eq h
                          rw [← hst, validKeys_sid_two]
                          exact VisitInv_of_logMsg st _ _ _ _
                            (sidSubstitute_inv gen n d _)
                        · rw [visit_sid_two_bad gen a b hab] at h
                          exact absurd h (by simp)
                    | cons c rest3 =>
                        have harity : argsLen (PyArgs.cons a (PyArgs.cons b
                            (PyArgs.cons c rest3))) = 0
                            ∨ 3 ≤ argsLen (PyArgs.cons a (PyArgs.cons b
                                (PyArgs.cons c rest3))) := by
                          right; simp [argsLen]
                        rw [visit_sid_wrong_arity gen _ harity st] at h
                        cases hv : visitArgs gen
                            (PyArgs.cons a (PyArgs.cons b (PyArgs.cons c rest3)))
                            (logMsg st LogLevel.error wrongArityMsg) with
                        | error e => simp only [hv] at h; exact Except.noConfusion h
                        | ok p =>
                            obtain ⟨args2, stA⟩ := p
                            simp only [hv] at h
                            obtain ⟨_, hst⟩ := exceptOk_pair_eq h
                            rw [← hst, validKeys_sid_wrong_arity _ harity]
                            exact VisitInv_of_logMsg st _ _ _ _
                              (visitArgs_inv gen _ _ _ _ hv)
          · rw [visit_nonsid_name gen fid hsid args st] at h
            cases hv : visitArgs gen args st with
            | error e => simp only [hv] at h; exact Except.noConfusion h
            | ok p =>
                obtain ⟨args2, stA⟩ := p
                simp only [hv] at h
                obtain ⟨_, hst⟩ := exceptOk_pair_eq h
                rw [← hst, validKeys_nonsid_name fid hsid args]
                exact visitArgs_inv gen _ _ _ _ hv
      | strLit s =>
          rw [visit_call_nonname gen _ (fun i hc => by cases hc) args st] at h
          simp only [(visit_leaf gen st).2 s] at h
          cases hv : visitArgs gen args st with
          | error e => simp only [hv] at h; exact Except.noConfusion h
          | ok p =>
              obtain ⟨args2, stA⟩ := p
              simp only [hv] at h
              obtain ⟨_, hst⟩ := exceptOk_pair_eq h
              rw [← hst, validKeys_call_nonname _ (fun i hc => by cases hc) args]
              exact visitArgs_inv gen _ _ _ _ hv
      | call f1 a1 =>
          rw [visit_call_nonname gen _ (fun i hc => by cases hc) args st] at h
          cases hf : visit gen (PyExpr.call f1 a1) st with
          | error e => simp only [hf] at h; exact Except.noConfusion h
          | ok p =>
              obtain ⟨f2, stA⟩ := p
              simp only [hf] at h
              cases hv : visitArgs gen args stA with
              | error e => simp only [hv] at h; exact Except.noConfusion h
              | ok p2 =>
                  obtain ⟨args2, stB⟩ := p2
                  simp only [hv] at h
                  obtain ⟨_, hst⟩ := exceptOk_pair_eq h
                  rw [← hst, validKeys_call_nonname _ (fun i hc => by cases hc) args]
                  exact VisitInv_trans _ _ _ _ _
                    (visit_inv gen _ _ _ _ hf) (visitArgs_inv gen _ _ _ _ hv)

/-- The pass invariant for an argument-list visit. -/
theorem visitArgs_inv (gen : String → String → String) (as : PyArgs)
    (st : TState) (as2 : PyArgs) (st2 : TState)
    (h : visitArgs gen as st = Except.ok (as2, st2)) :
    VisitInv st st2 (validKeysArgs as) := by
  cases as with
  | nil =>
      obtain ⟨_, hst⟩ := exceptOk_pair_eq h
      rw [← hst]
      exact VisitInv_refl st
  | cons a rest =>
      rw [show visitArgs gen (PyArgs.cons a rest) st
          = match visit gen a st with
            | Except.error e => Except.error e
            | Except.ok (a2, st1) =>
                match visitArgs gen rest st1 with
                | Except.error e => Except.error e
                | Except.ok (rest2, st2) =>
                    Except.ok (PyArgs.cons a2 rest2, st2) by
        rw [visitArgs.eq_def]] at h
      cases ha : visit gen a st with
      | error e => simp only [ha] at h; exact Except.noConfusion h
      | ok p =>
          obtain ⟨a2, stA⟩ := p
          simp only [ha] at h
          cases hrest : visitArgs gen rest stA with
          | error e => simp only [hrest] at h; exact Except.noConfusion h
          | ok p2 =>
              obtain ⟨rest2, stB⟩ := p2
              simp only [hrest] at h
              obtain ⟨_, hst⟩ := exceptOk_pair_eq h
              rw [← hst]
              have hk : validKeysArgs (PyArgs.cons a rest)
                  = validKeys a ++ validKeysArgs rest := by
                rw [validKeysArgs.eq_def]
              rw [hk]
              exact VisitInv_trans _ _ _ _ _
                (visit_inv gen _ _ _ _ ha) (visitArgs_inv gen _ _ _ _ hrest)
end

/-! ## Valid marker sites, characterised -/

/-- A 1-argument marker call site `sid("description")`. -/
def sidSite1 (s : String) : PyExpr :=
  PyExpr.call (PyExpr.name "sid") (PyArgs.cons (PyExpr.strLit s) PyArgs.nil)

/-- A 2-argument marker call site `sid("name", "description")`. -/
def sidSite2 (n d : String) : PyExpr :=
  PyExpr.call (PyExpr.name "sid")
    (PyArgs.cons (PyExpr.strLit n) (PyArgs.cons (PyExpr.strLit d) PyArgs.nil))

/-- Visiting a valid marker site substitutes a bare `Name` carrying the
resolved function name, records the resolved key in the cache, and
appends exactly the cache's fragment for that key; the backend is
invoked exactly on a miss. -/
theorem visit_valid_site_spec (gen : String → String → String) (st : TState) :
    (∀ s, ∃ c st1, visit gen (sidSite1 s) st
        = Except.ok (PyExpr.name (pyReplaceSpace s), st1)
      ∧ lookupCache st1.function_cache (pyReplaceSpace s, s) = some c
      ∧ st1.function_codes = st.function_codes ++ [c]
      ∧ st1.backendCalls = st.backendCalls
          + (if lookupCache st.function_cache (pyReplaceSpace s, s) = none
             then 1 else 0))
    ∧ (∀ n d, ∃ c st1, visit gen (sidSite2 n d) st
        = Except.ok (PyExpr.name n, st1)
      ∧ lookupCache st1.function_cache (n, d) = some c
      ∧ st1.function_codes = st.function_codes ++ [c]
      ∧ st1.backendCalls = st.backendCalls
          + (if lookupCache st.function_cache (n, d) = none then 1 else 0)) := by
  constructor
  · intro s
    have e1 := visit_sid_one gen s st
    cases hl : lookupCache st.function_cache (pyReplaceSpace s, s) with
    | some c =>
        have hl2 : lookupCache
            (logMsg st LogLevel.info generatingMsg).function_cache
            (pyReplaceSpace s, s) = some c := hl
        rw [sidSubstitute_hit gen (pyReplaceSpace s) s _ c hl2] at e1
        exact ⟨c, _, e1, hl, rfl, by simp [logMsg, hl]⟩
    | none =>
        have hl2 : lookupCache
            (logMsg st LogLevel.info generatingMsg).function_cache
            (pyReplaceSpace s, s) = none := hl
        rw [sidSubstitute_miss gen (pyReplaceSpace s) s _ hl2] at e1
        refine ⟨gen (pyReplaceSpace s) s, _, e1, ?_, rfl, by simp [logMsg, hl]⟩
        simp [logMsg, lookupCache_dictInsert]
  · intro n d
    have e1 := visit_sid_two gen n d st
    cases hl : lookupCache st.function_cache (n, d) with
    | some c =>
        have hl2 : lookupCache
            (logMsg st LogLevel.info generatingMsg).function_cache
            (n, d) = some c := hl
        rw [sidSubstitute_hit gen n d _ c hl2] at e1
        exact ⟨c, _, e1, hl, rfl, by simp [logMsg, hl]⟩
    | none =>
        have hl2 : lookupCache
            (logMsg st LogLevel.info generatingMsg).function_cache
            (n, d) = none := hl
        rw [sidSubstitute_miss gen n d _ hl2] at e1
        refine ⟨gen n d, _, e1, ?_, rfl, by simp [logMsg, hl]⟩
        simp [logMsg, lookupCache_dictInsert]

/-- Pointwise cache agreement bounds per-key multiplicity: if every key
position pairs with the cache's value for it, a key occurring `m` times
contributes at least `m` copies of its value. -/
theorem forall₂_lookup_count (c : Cache) (keys : List GenKey)
    (frags : List String)
    (hall : List.Forall₂ (fun k v => lookupCache c k = some v) keys frags) :
    ∀ k v, lookupCache c k = some v → keys.count k ≤ frags.count v := by
  induction hall with
  | nil => intro k v _; simp
  | @cons k1 v1 ks vs h1 _ ih =>
      intro k v hkv
      rw [List.count_cons, List.count_cons]
      have hks := ih k v hkv
      by_cases hk : k = k1
      · have hv : v = v1 := by
          rw [hk, h1] at hkv
          injection hkv with h2
          exact h2.symm
        rw [if_pos (by simp [hk]), if_pos (by simp [hv])]
        omega
      · rw [if_neg (by simpa using Ne.symm hk)]
        omega

/-! ## Claims -/

/-- A string of printable ASCII text. -/
def PrintableStr (s : String) : Prop :=
  ∀ c ∈ s.toList, 32 ≤ c.toNat ∧ c.toNat ≤ 126

instance (s : String) : Decidable (PrintableStr s) := by
  unfold PrintableStr
  infer_instance

/-- C4: for every `(function_name, description)` pair of printable text,
including pairs containing the separator characters of the encoding
itself, encoding the key to its persisted single-string form (as
`save_cache` does with `str((fname, desc))`) and then decoding that
string (as `load_cache` does with `eval`) yields the original pair. -/
theorem spec_C4_key_roundtrip (n d : String)
    (h1 : PrintableStr n) (h2 : PrintableStr d) :
    decodeKey (encodeKey (n, d)) = some (n, d) :=
  decodeKey_encodeKey (n, d)

/-- Witness for C4, on a pair containing the encoding's own separator
text `", "`, both quote characters and a backslash. -/
theorem spec_C4_key_roundtrip_witness :
    PrintableStr "a, 'quoted'"
    ∧ PrintableStr "he said \"hi\", path C:\\tmp"
    ∧ decodeKey (encodeKey ("a, 'quoted'", "he said \"hi\", path C:\\tmp"))
        = some ("a, 'quoted'", "he said \"hi\", path C:\\tmp") :=
  ⟨by decide, by decide,
    spec_C4_key_roundtrip "a, 'quoted'" "he said \"hi\", path C:\\tmp"
      (by decide) (by decide)⟩

/-- C6: a valid 1-argument marker site with description `D` derives its
function name as `D` with every space replaced by an underscore
(`pyReplaceSpace`), and that name is both the name component of the
cache key and the substituted identifier; a 2-argument site uses the
explicit name verbatim in both places. -/
theorem spec_C6_derived_names (gen : String → String → String)
    (st : TState) (s n d : String) :
    (∃ c st1, visit gen (sidSite1 s) st
        = Except.ok (PyExpr.name (pyReplaceSpace s), st1)
      ∧ lookupCache st1.function_cache (pyReplaceSpace s, s) = some c
      ∧ st1.function_codes = st.function_codes ++ [c])
    ∧ (∃ c st2, visit gen (sidSite2 n d) st = Except.ok (PyExpr.name n, st2)
      ∧ lookupCache st2.function_cache (n, d) = some c
      ∧ st2.function_codes = st.function_codes ++ [c])
    ∧ pyReplaceSpace s
        = String.mk (s.toList.map (fun c => if c = ' ' then '_' else c)) := by
  obtain ⟨hone, htwo⟩ := visit_valid_site_spec gen st
  obtain ⟨c1, st1, he1, hk1, hc1, _⟩ := hone s
  obtain ⟨c2, st2, he2, hk2, hc2, _⟩ := htwo n d
  exact ⟨⟨c1, st1, he1, hk1, hc1⟩, ⟨c2, st2, he2, hk2, hc2⟩, rfl⟩

/-- C7: a valid marker call site is replaced by a bare identifier
reference (`ast.Name`) bearing the resolved function name — an
identifier, never a call expression — so `sid("add two numbers")`
rewrites to the reference `add_two_numbers`. -/
theorem spec_C7_identifier_substitution (gen : String → String → String)
    (st : TState) (s n d : String) :
    (∃ st1, visit gen (sidSite1 s) st
        = Except.ok (PyExpr.name (pyReplaceSpace s), st1))
    ∧ (∃ st2, visit gen (sidSite2 n d) st = Except.ok (PyExpr.name n, st2))
    ∧ (∀ f args st1,
        visit gen (sidSite1 s) st ≠ Except.ok (PyExpr.call f args, st1))
    ∧ pyReplaceSpace "add two numbers" = "add_two_numbers" := by
  obtain ⟨hone, htwo⟩ := visit_valid_site_spec gen st
  obtain ⟨c1, st1, he1, _, _, _⟩ := hone s
  obtain ⟨c2, st2, he2, _, _, _⟩ := htwo n d
  refine ⟨⟨st1, he1⟩, ⟨st2, he2⟩, ?_, rfl⟩
  intro f args st3 hcon
  rw [he1] at hcon
  injection hcon with hp
  exact PyExpr.noConfusion (congrArg Prod.fst hp)

/-- C5: generating a `(function_name, description)` key in one run
(starting from an empty cache file) stores the generated text under
that key (even when it is empty), writes the cache file immediately
after the insertion, and counts exactly one backend call; a second run
constructed over the persisted file hits the cache for the same key:
zero backend calls, and the persisted text is reused as the appended
fragment. -/
theorem spec_C5_cache_idempotence (gen : String → String → String)
    (n d : String) :
    ∃ st1, visit gen (sidSite2 n d) (initState none)
        = Except.ok (PyExpr.name n, st1)
      ∧ st1.backendCalls = 1
      ∧ lookupCache st1.function_cache (n, d) = some (gen n d)
      ∧ st1.function_codes = [gen n d]
      ∧ st1.cacheFile = some (save_cache st1.function_cache)
      ∧ ∃ st2, visit gen (sidSite2 n d) (initState st1.cacheFile)
            = Except.ok (PyExpr.name n, st2)
          ∧ st2.backendCalls = 0
          ∧ st2.function_codes = [gen n d] := by
  have e1 := visit_sid_two gen n d (initState none)
  have hl1 : lookupCache
      (logMsg (initState none) LogLevel.info generatingMsg).function_cache
      (n, d) = none := rfl
  rw [sidSubstitute_miss gen n d _ hl1] at e1
  refine ⟨_, e1, rfl, ?_, rfl, rfl, ?_⟩
  · simp [logMsg, initState, load_cache, dictInsert, lookupCache]
  · have e2 := visit_sid_two gen n d
      (initState (some (save_cache (dictInsert
        (logMsg (initState none) LogLevel.info generatingMsg).function_cache
        (n, d) (gen n d)))))
    have hl2 : lookupCache
        (logMsg (initState (some (save_cache (dictInsert
            (logMsg (initState none) LogLevel.info generatingMsg).function_cache
            (n, d) (gen n d))))) LogLevel.info generatingMsg).function_cache
        (n, d) = some (gen n d) := by
      show lookupCache (load_cache (some (save_cache _))) (n, d) = _
      rw [load_cache_save_cache]
      simp [logMsg, initState, load_cache, dictInsert, lookupCache]
    rw [sidSubstitute_hit gen n d _ (gen n d) hl2] at e2
    exact ⟨_, e2, rfl, rfl⟩

/-- C9: a completed pass appends one fragment to the pool per valid
marker site (hit or miss alike), each fragment equal to the final
cache's text for that site's key; hence a key occurring at `m` valid
sites contributes its text at least `m` times to the pool, not once. -/
theorem spec_C9_fragment_per_site (gen : String → String → String)
    (e : PyExpr) (st : TState) (e2 : PyExpr) (st2 : TState)
    (h : visit gen e st = Except.ok (e2, st2)) :
    ∃ frags, st2.function_codes = st.function_codes ++ frags
      ∧ frags.length = (validKeys e).length
      ∧ List.Forall₂ (fun k c => lookupCache st2.function_cache k = some c)
          (validKeys e) frags
      ∧ ∀ k v, lookupCache st2.function_cache k = some v →
          (validKeys e).count k ≤ frags.count v := by
  obtain ⟨_, _, ⟨frags, hcodes, hall⟩⟩ := visit_inv gen e st e2 st2 h
  exact ⟨frags, hcodes, (List.Forall₂.length_eq hall).symm, hall,
    forall₂_lookup_count _ _ _ hall⟩

/-- The dummy backend text used in the C9 witness. -/
def dupKeyCode : String := "def a_b(): pass"

/-- A program with the same marker key `("a_b", "a b")` at two distinct
valid sites: `f(sid("a b"), sid("a b"))`. -/
def dupKeyProg : PyExpr :=
  PyExpr.call (PyExpr.name "f")
    (PyArgs.cons (sidSite1 "a b") (PyArgs.cons (sidSite1 "a b") PyArgs.nil))

/-- The transformer state after one pass over `dupKeyProg`. -/
def dupKeyFinal : TState :=
  { function_cache := [(("a_b", "a b"), dupKeyCode)]
    function_codes := [dupKeyCode, dupKeyCode]
    cacheFile := some [("('a_b', 'a b')", dupKeyCode)]
    log := [(LogLevel.info, generatingMsg), (LogLevel.info, generatedMsg),
            (LogLevel.info, generatingMsg), (LogLevel.info, generatedMsg)]
    backendCalls := 1 }

/-- Witness for C9: with the same key at two sites, the pass appends the
generated text twice (one backend call, two pool entries). -/
theorem spec_C9_fragment_per_site_witness :
    visit (fun _ _ => dupKeyCode) dupKeyProg (initState none)
      = Except.ok (PyExpr.call (PyExpr.name "f")
          (PyArgs.cons (PyExpr.name "a_b")
            (PyArgs.cons (PyExpr.name "a_b") PyArgs.nil)), dupKeyFinal)
    ∧ (∃ frags, dupKeyFinal.function_codes
          = (initState none).function_codes ++ frags
        ∧ frags.length = (validKeys dupKeyProg).length
        ∧ List.Forall₂
            (fun k c => lookupCache dupKeyFinal.function_cache k = some c)
            (validKeys dupKeyProg) frags
        ∧ ∀ k v, lookupCache dupKeyFinal.function_cache k = some v →
            (validKeys dupKeyProg).count k ≤ frags.count v) :=
  ⟨rfl, spec_C9_fragment_per_site (fun _ _ => dupKeyCode) dupKeyProg
    (initState none) _ dupKeyFinal rfl⟩

/-- C1 (amended): a `sid` call with 0 or 3-or-more arguments is left a
`sid` call (only its children are rewritten), an error is logged, and no
exception escapes that node provided the recursive visit of its
arguments returns; but a `sid` call with 1 or 2 arguments in which a
needed argument is not a string literal raises an `AttributeError` out
of the visit (the unguarded `.s` access / `str.replace` of lines
55-62). -/
theorem spec_C1_malformed_sites (gen : String → String → String)
    (st : TState) :
    (∀ args, argsLen args = 0 ∨ 3 ≤ argsLen args →
      ∀ args2 st1,
        visitArgs gen args (logMsg st LogLevel.error wrongArityMsg)
          = Except.ok (args2, st1) →
        visit gen (PyExpr.call (PyExpr.name "sid") args) st
            = Except.ok (PyExpr.call (PyExpr.name "sid") args2, st1)
          ∧ (LogLevel.error, wrongArityMsg) ∈ st1.log)
    ∧ (∀ a, (∀ s, a ≠ PyExpr.strLit s) →
        visit gen (PyExpr.call (PyExpr.name "sid")
            (PyArgs.cons a PyArgs.nil)) st
          = Except.error (PyError.attributeError
              "1-argument sid call: argument node has no usable str value"))
    ∧ (∀ a b, (¬ ∃ nn dd, a = PyExpr.strLit nn ∧ b = PyExpr.strLit dd) →
        visit gen (PyExpr.call (PyExpr.name "sid")
            (PyArgs.cons a (PyArgs.cons b PyArgs.nil))) st
          = Except.error (PyError.attributeError
              "2-argument sid call: argument node has no usable str value")) := by
  refine ⟨?_, ?_, ?_⟩
  · intro args harity args2 st1 hv
    rw [visit_sid_wrong_arity gen args harity st]
    rw [hv]
    refine ⟨rfl, ?_⟩
    obtain ⟨_, ⟨l, hl⟩, _⟩ := visitArgs_inv gen args _ args2 st1 hv
    rw [hl]
    simp [logMsg]
  · intro a ha
    exact visit_sid_one_bad gen a ha st
  · intro a b hab
    exact visit_sid_two_bad gen a b hab st

/-- Counterexample to C1 as stated: a 1-argument `sid` call whose
argument is the identifier `x` (not a string literal) raises out of the
visit instead of being skipped with a logged error. -/
theorem spec_C1_counterexample :
    visit (fun _ _ => "") (PyExpr.call (PyExpr.name "sid")
        (PyArgs.cons (PyExpr.name "x") PyArgs.nil)) (initState none)
      = Except.error (PyError.attributeError
          "1-argument sid call: argument node has no usable str value") := rfl

/-- Witness for the amended C1: a 0-argument call is preserved with an
error logged; a 1-argument call whose argument is a call expression
raises. -/
theorem spec_C1_malformed_sites_witness :
    (visit (fun _ _ => "") (PyExpr.call (PyExpr.name "sid") PyArgs.nil)
        (initState none)
      = Except.ok (PyExpr.call (PyExpr.name "sid") PyArgs.nil,
          logMsg (initState none) LogLevel.error wrongArityMsg)
      ∧ (LogLevel.error, wrongArityMsg)
          ∈ (logMsg (initState none) LogLevel.error wrongArityMsg).log)
    ∧ visit (fun _ _ => "") (PyExpr.call (PyExpr.name "sid")
        (PyArgs.cons (PyExpr.call (PyExpr.name "g") PyArgs.nil) PyArgs.nil))
        (initState none)
      = Except.error (PyError.attributeError
          "1-argument sid call: argument node has no usable str value") :=
  ⟨(spec_C1_malformed_sites (fun _ _ => "") (initState none)).1
      PyArgs.nil (Or.inl rfl) PyArgs.nil _ rfl,
   (spec_C1_malformed_sites (fun _ _ => "") (initState none)).2.1
      (PyExpr.call (PyExpr.name "g") PyArgs.nil) (fun s hc => by cases hc)⟩

/-- C2 (amended): on a cache miss whose generation step raises, the
value stored under the key is `""`; on a non-success (non-200) HTTP
status, the stored value is the sentinel text `"Response 404"`, not the
empty string.  In both cases the marker site is still replaced by an
identifier reference, no exception escapes, and the cache file is
written immediately after the insertion. -/
theorem spec_C2_generation_failure (backend : String → String → BackendResult)
    (compileOk : String → Bool) (extract : String → String)
    (n d : String) (st : TState)
    (hmiss : lookupCache st.function_cache (n, d) = none) :
    ∃ st2, visit (genOf backend compileOk extract) (sidSite2 n d) st
        = Except.ok (PyExpr.name n, st2)
      ∧ lookupCache st2.function_cache (n, d)
          = some (generate_function compileOk extract (backend n d))
      ∧ st2.cacheFile = some (save_cache st2.function_cache)
      ∧ (∀ m, backend n d = BackendResult.raises m →
          generate_function compileOk extract (backend n d) = "")
      ∧ (∀ s c, backend n d = BackendResult.response s c → s ≠ 200 →
          generate_function compileOk extract (backend n d)
            = "Response 404") := by
  have e1 := visit_sid_two (genOf backend compileOk extract) n d st
  have hl2 : lookupCache
      (logMsg st LogLevel.info generatingMsg).function_cache (n, d)
      = none := hmiss
  rw [sidSubstitute_miss (genOf backend compileOk extract) n d _ hl2] at e1
  refine ⟨_, e1, ?_, rfl, ?_, ?_⟩
  · simp [logMsg, lookupCache_dictInsert, genOf]
  · intro m hm
    simp [generate_function, hm]
  · intro s c hr hs
    simp [generate_function, hr, hs]

/-- Counterexample to C2 as stated: a backend returning HTTP status 500
on a cache miss stores `"Response 404"` under the key, not the empty
string the claim requires. -/
theorem spec_C2_counterexample :
    visit (genOf (fun _ _ => BackendResult.response 500 none)
        (fun _ => true) id)
      (sidSite2 "add" "add two numbers") (initState none)
      = Except.ok (PyExpr.name "add",
          { function_cache := [(("add", "add two numbers"), "Response 404")]
            function_codes := ["Response 404"]
            cacheFile := some [("('add', 'add two numbers')", "Response 404")]
            log := [(LogLevel.info, generatingMsg),
                    (LogLevel.info, generatedMsg)]
            backendCalls := 1 })
    ∧ ("Response 404" : String) ≠ "" :=
  ⟨rfl, by decide⟩

/-- Witness for the amended C2: a raising backend stores `""` and the
site is still substituted. -/
theorem spec_C2_generation_failure_witness :
    lookupCache (initState none).function_cache ("n1", "d1") = none
    ∧ (∃ st2, visit (genOf (fun _ _ => BackendResult.raises "ConnectionError")
          (fun _ => true) id) (sidSite2 "n1" "d1") (initState none)
        = Except.ok (PyExpr.name "n1", st2)
      ∧ lookupCache st2.function_cache ("n1", "d1")
          = some (generate_function (fun _ => true) id
              ((fun _ _ => BackendResult.raises "ConnectionError") "n1" "d1"))
      ∧ st2.cacheFile = some (save_cache st2.function_cache)
      ∧ (∀ m, (fun _ _ => BackendResult.raises "ConnectionError") "n1" "d1"
            = BackendResult.raises m →
          generate_function (fun _ => true) id
            ((fun _ _ => BackendResult.raises "ConnectionError") "n1" "d1")
            = "")
      ∧ (∀ s c, (fun _ _ => BackendResult.raises "ConnectionError") "n1" "d1"
            = BackendResult.response s c → s ≠ 200 →
          generate_function (fun _ => true) id
            ((fun _ _ => BackendResult.raises "ConnectionError") "n1" "d1")
            = "Response 404")) :=
  ⟨rfl, spec_C2_generation_failure
    (fun _ _ => BackendResult.raises "ConnectionError") (fun _ => true) id
    "n1" "d1" (initState none) rfl⟩

/-- C3 (amended): in batch mode a read failure is caught (the run
aborts without raising) and a write failure is caught (the run
completes without raising), but a parse failure (`ast.parse`, line 143)
and any transformer exception (`transformer.visit`, line 145) propagate
out of `sid_compiler` uncaught. -/
theorem spec_C3_driver_failure_modes :
    (∀ env m, env.readResult = Except.error m →
      sid_compiler env = Except.ok BatchOutcome.aborted_read)
    ∧ (∀ env code m, env.readResult = Except.ok code →
        env.parse code = Except.error m →
        sid_compiler env = Except.error (PyError.syntaxError m))
    ∧ (∀ env code mod e, env.readResult = Except.ok code →
        env.parse code = Except.ok mod →
        visit env.gen mod (initState env.cacheFile) = Except.error e →
        sid_compiler env = Except.error e)
    ∧ (∀ env code mod m2 st2, env.readResult = Except.ok code →
        env.parse code = Except.ok mod →
        visit env.gen mod (initState env.cacheFile)
          = Except.ok (m2, st2) →
        sid_compiler env
          = if env.writeOk
            then Except.ok (BatchOutcome.wrote
              (String.intercalate "\n\n" st2.function_codes
                ++ env.unparse m2))
            else Except.ok (BatchOutcome.write_failed
              (String.intercalate "\n\n" st2.function_codes
                ++ env.unparse m2))) := by
  refine ⟨?_, ?_, ?_, ?_⟩
  · intro env m h
    simp [sid_compiler, h]
  · intro env code m h1 h2
    simp [sid_compiler, h1, h2]
  · intro env code mod e h1 h2 h3
    simp [sid_compiler, h1, h2, h3]
  · intro env code mod m2 st2 h1 h2 h3
    simp [sid_compiler, h1, h2, h3]

/-- Counterexample to C3 as stated: a source whose only statement is
`sid(x)` (non-literal argument) makes `transformer.visit` raise, and the
exception propagates out of `sid_compiler`. -/
theorem spec_C3_counterexample :
    sid_compiler
      { readResult := Except.ok "result = sid(x)"
        parse := fun _ => Except.ok (PyExpr.call (PyExpr.name "sid")
            (PyArgs.cons (PyExpr.name "x") PyArgs.nil))
        unparse := fun _ => ""
        gen := fun _ _ => ""
        cacheFile := none
        writeOk := true }
      = Except.error (PyError.attributeError
          "1-argument sid call: argument node has no usable str value") := rfl

/-- Witness for the amended C3: a read failure aborts without raising. -/
theorem spec_C3_driver_failure_modes_witness :
    sid_compiler
      { readResult := Except.error "No such file or directory"
        parse := fun _ => Except.error "unreachable"
        unparse := fun _ => ""
        gen := fun _ _ => ""
        cacheFile := none
        writeOk := true }
      = Except.ok BatchOutcome.aborted_read :=
  spec_C3_driver_failure_modes.1 _ "No such file or directory" rfl

/-- C8 (amended): two non-empty positional arguments run batch mode and
zero arguments run the interactive prompt, but exactly one positional
argument also runs the interactive prompt (the `if args.input_path and
args.output_path` guard falls through) rather than being a usage error;
only three or more positional arguments are a usage error. -/
theorem spec_C8_cli_dispatch :
    main_dispatch [] = CliMode.interactive
    ∧ (∀ a, main_dispatch [a] = CliMode.interactive)
    ∧ (∀ a b, a ≠ "" → b ≠ "" → main_dispatch [a, b] = CliMode.batch a b)
    ∧ (∀ argv, 3 ≤ argv.length → main_dispatch argv = CliMode.usage_error) := by
  refine ⟨rfl, ?_, ?_, ?_⟩
  · intro a
    simp [main_dispatch, parse_args, pyTruthy]
  · intro a b ha hb
    simp [main_dispatch, parse_args, pyTruthy, ha, hb]
  · intro argv h
    rcases argv with _ | ⟨a, _ | ⟨b, _ | ⟨c, rest⟩⟩⟩
    · simp at h
    · simp at h
    · simp at h
    · rfl

/-- Counterexample to C8 as stated: one positional argument silently
runs the interactive prompt instead of being a usage error. -/
theorem spec_C8_counterexample :
    main_dispatch ["input.py"] = CliMode.interactive
    ∧ CliMode.interactive ≠ CliMode.usage_error :=
  ⟨rfl, by decide⟩

/-- Witness for the amended C8: two non-empty arguments dispatch to
batch mode. -/
theorem spec_C8_cli_dispatch_witness :
    main_dispatch ["in.py", "out.py"] = CliMode.batch "in.py" "out.py" :=
  spec_C8_cli_dispatch.2.2.1 "in.py" "out.py" (by decide) (by decide)

/-- C10: the credential fetch is a total function of the response — it
never raises and never signals failure by exception: a raise inside it
is caught and returned as an error dictionary, a non-200 status returns
an error dictionary, a 200 response without a `token` field returns
`None`, and only a 200 response with a token returns a string; whatever
value results is interpolated into the `Bearer` authorization header of
the generation request (line 92). -/
theorem spec_C10_token_failure_shape :
    (∀ m, get_token (TokenResponse.raises m) = PyValue.errDict m)
    ∧ (∀ s tok, s ≠ 200 →
        get_token (TokenResponse.response s tok)
          = PyValue.errDict ("Received " ++ toString s ++ " HTTP status code"))
    ∧ get_token (TokenResponse.response 200 none) = PyValue.pyNone
    ∧ (∀ t, get_token (TokenResponse.response 200 (some t)) = PyValue.str t)
    ∧ (∀ v, bearer_authorization_header v = "Bearer " ++ pyStrOfValue v)
    ∧ bearer_authorization_header (PyValue.errDict "boom")
        = "Bearer \x7b'error': 'boom'\x7d"
    ∧ bearer_authorization_header PyValue.pyNone = "Bearer None" := by
  refine ⟨fun m => rfl, ?_, rfl, fun t => rfl, fun v => rfl, rfl, rfl⟩
  intro s tok h
  simp [get_token, h]

/-- Witness for C10: a 404 token response yields the error dictionary,
not an exception. -/
theorem spec_C10_token_failure_shape_witness :
    get_token (TokenResponse.response 404 none)
      = PyValue.errDict "Received 404 HTTP status code" :=
  spec_C10_token_failure_shape.2.1 404 none (by decide)
